import Mathlib

/-!
Verification of the Tmux-Orchestrator agent orchestration and messaging engine.

The repository ships the orchestration shell utilities (orchestra_utils.sh),
the README template table, and the strategy-consultant web app with its
AI verification service (ai-services.js).  The core engine files named by the
README (tmuxorchestra.py, send-claude-message.sh, schedule_with_note.sh) are
not part of the available sources; where a definition embeds one of those
missing parts it is modelled from the specification and marked as such in its
doc comment.  All other definitions are translated directly from the sources.
-/

namespace Orchestra

/-! ## Data model (spec section 3) -/

/-- Agent roles, from the README role list (Orchestrator, Project Manager,
Developer, QA Engineer, DevOps, Code Reviewer, Researcher, Documentation
Writer). -/
inductive Role where
  | Orchestrator
  | ProjectManager
  | Developer
  | QA
  | DevOps
  | Reviewer
  | Researcher
  | DocWriter
deriving DecidableEq, Repr, Fintype

/-- Agent status enum from the spec data model. -/
inductive AgentStatus where
  | Provisioning
  | Active
  | Stalled
  | Unresponsive
  | Retired
deriving DecidableEq, Repr

/-- Agent identity: the stable session:window key, modelled as the pair of
session name and window index (the two components of the string key). -/
abbrev AgentID := String × Nat

/-- A registered logical worker. -/
structure Agent where
  role : Role
  team : String
  session : String
  window : Nat
  status : AgentStatus
  last_seen : Nat
deriving DecidableEq, Repr

/-- Registry integrity errors. -/
inductive RegError where
  | DuplicateIdentity
  | NotFound
deriving DecidableEq, Repr

/-- The agent registry: association list from identity to agent record. -/
structure Registry where
  agents : List (AgentID × Agent)
deriving DecidableEq, Repr

/-- Lookup of the first entry with the given identity. -/
def lookupAgent : List (AgentID × Agent) → AgentID → Option Agent
  | [], _ => none
  | p :: rest, id => if p.1 = id then some p.2 else lookupAgent rest id

/-- Removal of every entry with the given identity. -/
def removeAgent (l : List (AgentID × Agent)) (id : AgentID) : List (AgentID × Agent) :=
  l.filter (fun p => !(decide (p.1 = id)))

def Registry.empty : Registry := ⟨[]⟩

/-- Modelled from the spec: the Agent Registry register operation of
tmuxorchestra.py (not among the available sources).  Fails with
DuplicateIdentity if session:window is already registered and not Retired;
otherwise it atomically inserts a fresh Active agent under that identity. -/
def Registry.register (reg : Registry) (role : Role) (team session : String) (window : Nat) :
    Except RegError (AgentID × Registry) :=
  match lookupAgent reg.agents (session, window) with
  | some a =>
      if a.status = AgentStatus.Retired then
        Except.ok ((session, window),
          ⟨((session, window), ⟨role, team, session, window, AgentStatus.Active, 0⟩) ::
            removeAgent reg.agents (session, window)⟩)
      else Except.error RegError.DuplicateIdentity
  | none =>
      Except.ok ((session, window),
        ⟨((session, window), ⟨role, team, session, window, AgentStatus.Active, 0⟩) ::
          removeAgent reg.agents (session, window)⟩)

/-- Modelled from the spec: the registry get operation. -/
def Registry.get (reg : Registry) (id : AgentID) : Except RegError Agent :=
  match lookupAgent reg.agents id with
  | some a => Except.ok a
  | none => Except.error RegError.NotFound

/-- Modelled from the spec: retire marks the identity as Retired (terminal). -/
def Registry.retire (reg : Registry) (id : AgentID) : Registry :=
  ⟨reg.agents.map (fun p =>
    if p.1 = id then (p.1, { p.2 with status := AgentStatus.Retired }) else p)⟩

/-- Modelled from the spec: updateStatus writes status and last_seen for the
identity, except that an observedAt older than the stored last_seen is a
no-op (monotonic last-seen). -/
def Registry.updateStatus (reg : Registry) (id : AgentID) (st : AgentStatus)
    (observedAt : Nat) : Registry :=
  ⟨reg.agents.map (fun p =>
    if p.1 = id then
      if observedAt < p.2.last_seen then p
      else (p.1, { p.2 with status := st, last_seen := observedAt })
    else p)⟩

/-! ## Message dispatcher (spec section 4.2) -/

/-- Outcome of one inject/settle/submit/capture attempt as observed through
the Session Gateway: the captured pane output changed, it did not change, or
the underlying gateway call failed. -/
inductive AttemptResult where
  | changed
  | unchanged
  | gatewayError
deriving DecidableEq, Repr

/-- Cause attached to a failed delivery. -/
inductive FailCause where
  | Unconfirmed
  | GatewayError
deriving DecidableEq, Repr

/-- Delivery outcome of one send call: confirmed on the first attempt
(Delivered), confirmed on the single retry (Retried), or Failed. -/
inductive DeliveryResult where
  | Delivered
  | Retried
  | Failed (cause : FailCause)
deriving DecidableEq, Repr

/-- One primitive dispatcher action against the Session Gateway. -/
inductive SendAction where
  | inject (target : String) (body : String)
  | settle (ms : Nat)
  | submit (target : String)
  | capture (target : String)
deriving DecidableEq, Repr

/-- The fixed settle interval between injecting text and submitting it,
in milliseconds (a tunable constant per spec section 9). -/
def settleInterval : Nat := 500

/-- One attempt of the timing-safe injection protocol, as an ordered action
trace: inject without submitting, wait the settle interval, submit as a
separate step, then capture pane output. -/
def attemptTrace (target body : String) : List SendAction :=
  [SendAction.inject target body, SendAction.settle settleInterval,
   SendAction.submit target, SendAction.capture target]

/-- Modelled from the spec: the action trace of send from
send-claude-message.sh / the Message Dispatcher (not among the available
sources).  The attempt sequence is repeated exactly once more when the first
capture shows no output change. -/
def sendTrace (target body : String) (g : Nat → AttemptResult) : List SendAction :=
  match g 0 with
  | AttemptResult.unchanged => attemptTrace target body ++ attemptTrace target body
  | _ => attemptTrace target body

/-- Modelled from the spec: the delivery result of send given the per-attempt
gateway observations.  Output change on the first attempt is Delivered; no
change leads to exactly one retry, confirmed retry is Retried, otherwise
Failed Unconfirmed; a gateway error fails the send with GatewayError. -/
def sendResult (g : Nat → AttemptResult) : DeliveryResult :=
  match g 0 with
  | AttemptResult.changed => DeliveryResult.Delivered
  | AttemptResult.gatewayError => DeliveryResult.Failed FailCause.GatewayError
  | AttemptResult.unchanged =>
      match g 1 with
      | AttemptResult.changed => DeliveryResult.Retried
      | AttemptResult.gatewayError => DeliveryResult.Failed FailCause.GatewayError
      | AttemptResult.unchanged => DeliveryResult.Failed FailCause.Unconfirmed

/-- True when the gateway call of one of the at most two attempts errors. -/
def sendGatewayError (g : Nat → AttemptResult) : Bool :=
  match g 0 with
  | AttemptResult.gatewayError => true
  | AttemptResult.changed => false
  | AttemptResult.unchanged =>
      match g 1 with
      | AttemptResult.gatewayError => true
      | _ => false

/-- True when delivery is confirmed within the two attempts. -/
def sendConfirms (g : Nat → AttemptResult) : Bool :=
  match g 0 with
  | AttemptResult.changed => true
  | AttemptResult.gatewayError => false
  | AttemptResult.unchanged =>
      match g 1 with
      | AttemptResult.changed => true
      | _ => false

/-- Modelled from the spec: the Message Dispatcher broadcast operation (not
among the available sources; the in-tree shell wrapper broadcast_to_session
is embedded separately below).  The fan-out is modelled as a pointwise map:
every Active agent of the team receives its own send whose result depends
only on that agent's gateway behavior, so the per-agent outcomes are
independent and one failure cannot block the others. -/
def broadcast (team : List (AgentID × Agent)) (g : AgentID → Nat → AttemptResult) :
    List (AgentID × DeliveryResult) :=
  (team.filter (fun p => decide (p.2.status = AgentStatus.Active))).map
    (fun p => (p.1, sendResult (g p.1)))

/-! ## Health monitor (spec section 4.3) -/

/-- Modelled from the spec: one sweep step of the Health Monitor for one
agent, observing the pane capture through the Session Gateway (output
changed, output unchanged, or the gateway call itself failed).  Fresh output
returns any non-Retired state to Active; with no output change an Active
agent that has been silent for at least T1 becomes Stalled and a Stalled
agent silent for at least T2 becomes Unresponsive; a gateway error is caught
and recorded as Unresponsive (spec sections 4.3 and 7) without aborting the
sweep; Retired is terminal and untouched. -/
def sweepStatus (T1 T2 : Nat) (st : AgentStatus) (obs : AttemptResult)
    (sinceOutput : Nat) : AgentStatus :=
  if st = AgentStatus.Retired then st
  else
    match obs with
    | AttemptResult.changed => AgentStatus.Active
    | AttemptResult.gatewayError => AgentStatus.Unresponsive
    | AttemptResult.unchanged =>
        match st with
        | AgentStatus.Active =>
            if T1 ≤ sinceOutput then AgentStatus.Stalled else AgentStatus.Active
        | AgentStatus.Stalled =>
            if T2 ≤ sinceOutput then AgentStatus.Unresponsive else AgentStatus.Stalled
        | s => s

/-! ## Team deployment (spec section 4.4, README template table) -/

/-- Team roles of the small template: 1 developer + 1 PM (README). -/
def smallRoles : List Role := [Role.Developer, Role.ProjectManager]

/-- Team roles of the medium template: 2 developers + 1 PM + 1 QA (README). -/
def mediumRoles : List Role :=
  [Role.Developer, Role.Developer, Role.ProjectManager, Role.QA]

/-- Team roles of the large template: 3 developers + 1 PM + 1 QA + 1 DevOps
+ 1 reviewer (README). -/
def largeRoles : List Role :=
  [Role.Developer, Role.Developer, Role.Developer, Role.ProjectManager,
   Role.QA, Role.DevOps, Role.Reviewer]

/-- The static template table from the README team-size options. -/
def templateRoles (size : String) : Option (List Role) :=
  if size = "small" then some smallRoles
  else if size = "medium" then some mediumRoles
  else if size = "large" then some largeRoles
  else none

/-- Input-validation errors of deploy. -/
inductive DeployError where
  | ProjectPathNotFound
  | UnknownTemplate
deriving DecidableEq, Repr

/-- An audit-log record for one dispatched message. -/
structure Message where
  recipient : AgentID
  body : String
  outcome : DeliveryResult
deriving DecidableEq, Repr

/-- The mutable orchestrator state touched by deploy: the registry, the
append-only message audit log, and the set of windows created through the
Session Gateway. -/
structure OrchestraState where
  reg : Registry
  log : List Message
  windows : List (String × Nat)
deriving DecidableEq, Repr

def initialState : OrchestraState := ⟨Registry.empty, [], []⟩

/-- Role briefing text keys (role-specific briefing per README). -/
def briefingText : Role → String
  | Role.Orchestrator => "briefing:orchestrator"
  | Role.ProjectManager => "briefing:project-manager"
  | Role.Developer => "briefing:developer"
  | Role.QA => "briefing:qa"
  | Role.DevOps => "briefing:devops"
  | Role.Reviewer => "briefing:reviewer"
  | Role.Researcher => "briefing:researcher"
  | Role.DocWriter => "briefing:doc-writer"

/-- Modelled from the spec: the per-role deployment loop of
tmuxorchestra.py deploy (not among the available sources).  For each template
entry in order: create a window via the Session Gateway, register the agent,
then send the role briefing through the dispatcher, appending the Message to
the audit log regardless of outcome; a registration failure aborts the
remaining role creation without rolling back already-created agents. -/
def deployRoles (projectName session : String) (g : Nat → Nat → AttemptResult) :
    OrchestraState → Nat → List Role → OrchestraState × List AgentID
  | st, _, [] => (st, [])
  | st, w, r :: rs =>
      let st0 : OrchestraState := { st with windows := st.windows ++ [(session, w)] }
      match st0.reg.register r projectName session w with
      | Except.error _ => (st0, [])
      | Except.ok (id, reg') =>
          let st1 : OrchestraState :=
            { st0 with
              reg := reg'
              log := st0.log ++ [⟨id, briefingText r, sendResult (g w)⟩] }
          let rest := deployRoles projectName session g st1 (w + 1) rs
          (rest.1, id :: rest.2)

/-- Modelled from the spec and from deploy_project in orchestra_utils.sh:
deploy first validates the project path (deploy_project returns an error
before invoking the engine when the path does not resolve) and the template
size, and only then performs any side effect. -/
def deploy (st : OrchestraState) (projectName session : String) (pathResolves : Bool)
    (size : String) (g : Nat → Nat → AttemptResult) :
    OrchestraState × Except DeployError (List AgentID) :=
  if pathResolves = false then (st, Except.error DeployError.ProjectPathNotFound)
  else
    match templateRoles size with
    | none => (st, Except.error DeployError.UnknownTemplate)
    | some roles =>
        let res := deployRoles projectName session g st 0 roles
        (res.1, Except.ok res.2)

/-- Gateway oracle under which every first attempt confirms delivery. -/
def allChanged : Nat → Nat → AttemptResult := fun _ _ => AttemptResult.changed

/-! ## Shell utilities (orchestra_utils.sh, in the sources) -/

/-- One observable effect of an orchestra_utils.sh function: a message routed
through send-claude-message.sh (the dispatcher path), a direct tmux send-keys
text injection bypassing the dispatcher, window creation, pane capture, or a
sleep. -/
inductive UtilEffect where
  | dispatchSend (session : String) (window : Nat) (body : String)
  | directKeys (session : String) (window : Nat) (text : String)
  | newWindow (session : String) (name : String)
  | capturePane (session : String) (window : Nat)
  | sleepSec (n : Nat)
deriving DecidableEq, Repr

/-- True for effects that inject text into a tmux window. -/
def injectsText : UtilEffect → Bool
  | UtilEffect.dispatchSend _ _ _ => true
  | UtilEffect.directKeys _ _ _ => true
  | _ => false

/-- True for injections routed through the dispatcher send script. -/
def viaDispatcher : UtilEffect → Bool
  | UtilEffect.dispatchSend _ _ _ => true
  | _ => false

/-- broadcast_to_session from orchestra_utils.sh: for every window of the
session, invoke send-claude-message.sh on session:window with the message,
then sleep one second. -/
def broadcast_to_session (session : String) : List Nat → String → List UtilEffect
  | [], _ => []
  | w :: ws, message =>
      UtilEffect.dispatchSend session w message :: UtilEffect.sleepSec 1 ::
        broadcast_to_session session ws message

/-- The fixed standup message of daily_standup in orchestra_utils.sh. -/
def standupMessage : String :=
  "デイリースタンドアップ: 1) 昨日完了したこと、2) 今日取り組むこと、3) ブロッカーがあれば教えてください"

/-- daily_standup from orchestra_utils.sh: broadcast the standup message to
the session. -/
def daily_standup (session : String) (windows : List Nat) : List UtilEffect :=
  broadcast_to_session session windows standupMessage

/-- The git status command text sent by check_git_status. -/
def gitStatusCommand : String := "git status --short"

/-- check_git_status from orchestra_utils.sh: for every window, send the git
status command directly with tmux send-keys plus Enter, sleep one second,
then capture the pane. -/
def check_git_status (session : String) : List Nat → List UtilEffect
  | [] => []
  | w :: ws =>
      UtilEffect.directKeys session w gitStatusCommand :: UtilEffect.sleepSec 1 ::
        UtilEffect.capturePane session w :: check_git_status session ws

/-- The fixed reminder message of git_commit_reminder in orchestra_utils.sh. -/
def reminderMessage : String :=
  "Gitリマインダー: 30分以上コミットせずに作業している場合は、今すぐ意味のあるメッセージで作業をコミットしてください！"

/-- git_commit_reminder from orchestra_utils.sh: invoke
send-claude-message.sh on every developer window found across sessions. -/
def git_commit_reminder : List (String × Nat) → List UtilEffect
  | [] => []
  | t :: ts => UtilEffect.dispatchSend t.1 t.2 reminderMessage :: git_commit_reminder ts

/-- create_pm from orchestra_utils.sh: create the Project-Manager window,
start the agent by sending the claude command directly with tmux send-keys,
sleep five seconds, then send the PM briefing through
send-claude-message.sh. -/
def create_pm (session : String) (newWindow : Nat) (pmBriefing : String) : List UtilEffect :=
  [UtilEffect.newWindow session "Project-Manager",
   UtilEffect.directKeys session newWindow "claude",
   UtilEffect.sleepSec 5,
   UtilEffect.dispatchSend session newWindow pmBriefing]

/-! ## AI verification service (ai-services.js, in the sources) -/

/-- Result object of one model call (callClaude, callOpenAI, callGemini).
Each call catches its own exceptions and resolves to an object that carries
an error field exactly when the call failed or the API key was missing,
mirroring the try/catch structure of ai-services.js, so the calls never
reject. -/
structure ModelResult where
  error : Option String
  feedback : Option String
deriving DecidableEq, Repr

/-- Truthiness of the error field, as tested by the filter in
verifyArgumentWithAI (the error strings in the source are all nonempty). -/
def hasError (r : ModelResult) : Bool := r.error.isSome

/-- The feedback object returned by verifyArgumentWithAI. -/
structure AIFeedback where
  claude_feedback : String
  openai_feedback : String
  gemini_feedback : String
  consensus : Nat
  overall_feedback : String
deriving DecidableEq, Repr

/-- The fallback feedback string substituted when a model result carries no
feedback text. -/
def fallbackFeedback : String := "エラーにより取得できませんでした"

/-- The overall feedback if-chain of verifyArgumentWithAI, keyed on the
consensus count. -/
def overallFeedbackFor (consensus : Nat) : String :=
  if consensus = 3 then "✅ 全モデル合意: 高品質な論点設計です。"
  else if consensus = 2 then "⚠️ 多数決で採用: 一部改善の余地があります。"
  else if consensus = 1 then "🔴 要検討: 論点設計の見直しが必要です。"
  else "❌ API接続エラー: 検証を再実行してください。"

/-- verifyArgumentWithAI from ai-services.js: the three model calls resolve
in parallel, the valid responses are those whose result has no error field,
consensus is their count, and the overall feedback is chosen by the
consensus if-chain; per-model feedback falls back to a fixed string when
absent. -/
def verifyArgumentWithAI (claudeResult openaiResult geminiResult : ModelResult) : AIFeedback :=
  let validResponses :=
    [claudeResult, openaiResult, geminiResult].filter (fun r => !(hasError r))
  let consensus := validResponses.length
  { claude_feedback := claudeResult.feedback.getD fallbackFeedback
    openai_feedback := openaiResult.feedback.getD fallbackFeedback
    gemini_feedback := geminiResult.feedback.getD fallbackFeedback
    consensus := consensus
    overall_feedback := overallFeedbackFor consensus }

/-! ## Theorems -/

/-- C10: verifyArgumentWithAI always returns a feedback object (the embedding
is a total function, mirroring the try/catch structure that prevents the
promise from rejecting) whose consensus equals the number of the three model
results without an error field, hence lies between 0 and 3, and whose overall
feedback is the fixed string determined solely by that count. -/
theorem verifyArgumentWithAI_consensus (c o g : ModelResult) :
    (verifyArgumentWithAI c o g).consensus =
      ([c, o, g].filter (fun r => !(hasError r))).length ∧
    (verifyArgumentWithAI c o g).consensus ≤ 3 ∧
    (verifyArgumentWithAI c o g).overall_feedback =
      overallFeedbackFor ((verifyArgumentWithAI c o g).consensus) ∧
    ((verifyArgumentWithAI c o g).consensus = 3 →
      (verifyArgumentWithAI c o g).overall_feedback =
        "✅ 全モデル合意: 高品質な論点設計です。") ∧
    ((verifyArgumentWithAI c o g).consensus = 2 →
      (verifyArgumentWithAI c o g).overall_feedback =
        "⚠️ 多数決で採用: 一部改善の余地があります。") ∧
    ((verifyArgumentWithAI c o g).consensus = 1 →
      (verifyArgumentWithAI c o g).overall_feedback =
        "🔴 要検討: 論点設計の見直しが必要です。") ∧
    ((verifyArgumentWithAI c o g).consensus = 0 →
      (verifyArgumentWithAI c o g).overall_feedback =
        "❌ API接続エラー: 検証を再実行してください。") := by
  refine ⟨rfl, ?_, rfl, ?_, ?_, ?_, ?_⟩
  · simpa using List.length_filter_le (fun r => !(hasError r)) [c, o, g]
  all_goals
    intro h
    show overallFeedbackFor ((verifyArgumentWithAI c o g).consensus) = _
    rw [h]
    rfl

/-- C10 witness: with exactly one erroring model result the consensus is 2
and the majority feedback string is returned. -/
theorem verifyArgumentWithAI_consensus_witness :
    (verifyArgumentWithAI ⟨some "Claude API error", some "x"⟩ ⟨none, some "y"⟩
        ⟨none, some "z"⟩).consensus = 2 ∧
    (verifyArgumentWithAI ⟨some "Claude API error", some "x"⟩ ⟨none, some "y"⟩
        ⟨none, some "z"⟩).overall_feedback =
      "⚠️ 多数決で採用: 一部改善の余地があります。" :=
  ⟨(verifyArgumentWithAI_consensus ⟨some "Claude API error", some "x"⟩ ⟨none, some "y"⟩
      ⟨none, some "z"⟩).1.trans (by decide),
   (verifyArgumentWithAI_consensus ⟨some "Claude API error", some "x"⟩ ⟨none, some "y"⟩
      ⟨none, some "z"⟩).2.2.2.2.1 (by decide)⟩

/-- C2: send performs the timing-safe injection protocol in order (inject
without submitting, settle, submit as a separate step, capture pane output);
the result is Delivered when the first capture shows an output change,
otherwise the attempt sequence is repeated exactly once more and the result
is Retried on a confirmed retry and Failed when delivery is still
unconfirmed. -/
theorem send_timing_protocol (target body : String) (g : Nat → AttemptResult) :
    attemptTrace target body =
      [SendAction.inject target body, SendAction.settle settleInterval,
       SendAction.submit target, SendAction.capture target] ∧
    (g 0 ≠ AttemptResult.unchanged → sendTrace target body g = attemptTrace target body) ∧
    (g 0 = AttemptResult.unchanged →
      sendTrace target body g = attemptTrace target body ++ attemptTrace target body) ∧
    (sendResult g = DeliveryResult.Delivered ↔ g 0 = AttemptResult.changed) ∧
    (sendResult g = DeliveryResult.Retried ↔
      g 0 = AttemptResult.unchanged ∧ g 1 = AttemptResult.changed) ∧
    (sendResult g = DeliveryResult.Failed FailCause.Unconfirmed ↔
      g 0 = AttemptResult.unchanged ∧ g 1 = AttemptResult.unchanged) := by
  refine ⟨rfl, ?_, ?_, ?_, ?_, ?_⟩ <;>
    cases h0 : g 0 <;> cases h1 : g 1 <;> simp [sendTrace, sendResult, h0, h1]

/-- Gateway oracle whose first attempt shows no output change and whose
retry confirms. -/
def retryOracle : Nat → AttemptResult :=
  fun n => if n = 0 then AttemptResult.unchanged else AttemptResult.changed

/-- C2 witness: under the retry oracle the trace is exactly two attempt
sequences and the result is Retried. -/
theorem send_timing_protocol_witness :
    sendTrace "demo:0" "hello" retryOracle =
      attemptTrace "demo:0" "hello" ++ attemptTrace "demo:0" "hello" ∧
    sendResult retryOracle = DeliveryResult.Retried :=
  ⟨(send_timing_protocol "demo:0" "hello" retryOracle).2.2.1 rfl,
   ((send_timing_protocol "demo:0" "hello" retryOracle).2.2.2.2.1).mpr ⟨rfl, rfl⟩⟩

/-- C6 counterexample: with thresholds 5 and 10, a sweep whose gateway call
errors moves an Active agent that has been silent for 0 time units (less
than T1, with no output change observed) directly to Unresponsive — a
transition outside the claimed Active/Stalled/Unresponsive machine, refuting
that sweep produces no status transition other than the T1/T2 demotions and
the recovery to Active. -/
theorem sweep_gateway_error_transition :
    sweepStatus 5 10 AgentStatus.Active AttemptResult.gatewayError 0 =
      AgentStatus.Unresponsive ∧
    AgentStatus.Unresponsive ≠ AgentStatus.Active ∧
    AgentStatus.Unresponsive ≠ AgentStatus.Stalled ∧
    ¬ (5 ≤ 0) := by
  decide

/-- C6 amended: the health sweep status update is a deterministic function
realizing exactly the specified state machine extended with the caught
sweep-failure rule of spec sections 4.3 and 7: fresh output returns any
non-Retired state to Active, an Active agent silent for at least T1 becomes
Stalled, a Stalled agent silent for at least T2 becomes Unresponsive, a
gateway error during capture records any non-Retired agent as Unresponsive,
Retired is fixed, and no other transition occurs. -/
theorem sweep_state_machine (T1 T2 : Nat) (_hT : T1 < T2) (st : AgentStatus)
    (obs : AttemptResult) (t : Nat) :
    (st ≠ AgentStatus.Retired → obs = AttemptResult.changed →
      sweepStatus T1 T2 st obs t = AgentStatus.Active) ∧
    (st = AgentStatus.Active → obs = AttemptResult.unchanged → T1 ≤ t →
      sweepStatus T1 T2 st obs t = AgentStatus.Stalled) ∧
    (st = AgentStatus.Stalled → obs = AttemptResult.unchanged → T2 ≤ t →
      sweepStatus T1 T2 st obs t = AgentStatus.Unresponsive) ∧
    (st ≠ AgentStatus.Retired → obs = AttemptResult.gatewayError →
      sweepStatus T1 T2 st obs t = AgentStatus.Unresponsive) ∧
    (sweepStatus T1 T2 AgentStatus.Retired obs t = AgentStatus.Retired) ∧
    (sweepStatus T1 T2 st obs t ≠ st →
      (obs = AttemptResult.changed ∧ sweepStatus T1 T2 st obs t = AgentStatus.Active) ∨
      (obs = AttemptResult.unchanged ∧ st = AgentStatus.Active ∧ T1 ≤ t ∧
        sweepStatus T1 T2 st obs t = AgentStatus.Stalled) ∨
      (obs = AttemptResult.unchanged ∧ st = AgentStatus.Stalled ∧ T2 ≤ t ∧
        sweepStatus T1 T2 st obs t = AgentStatus.Unresponsive) ∨
      (obs = AttemptResult.gatewayError ∧
        sweepStatus T1 T2 st obs t = AgentStatus.Unresponsive)) := by
  cases st <;> cases obs <;>
    simp only [sweepStatus, reduceCtorEq, if_false, if_true, ne_eq] <;>
    (try split_ifs) <;> simp_all

/-- C6 witness: with thresholds 5 and 10, an Active agent silent for 7 time
units with no output change moves to Stalled. -/
theorem sweep_state_machine_witness :
    sweepStatus 5 10 AgentStatus.Active AttemptResult.unchanged 7 = AgentStatus.Stalled :=
  (sweep_state_machine 5 10 (by decide) AgentStatus.Active AttemptResult.unchanged 7).2.1
    rfl rfl (by decide)

/-- With unique identities, lookup finds exactly the entry a member pair
carries. -/
theorem lookupAgent_of_mem_nodup {l : List (AgentID × Agent)}
    (hnd : (l.map Prod.fst).Nodup) {p : AgentID × Agent} (hp : p ∈ l) :
    lookupAgent l p.1 = some p.2 := by
  induction l with
  | nil => cases hp
  | cons q rest ih =>
      have hnd2 : q.1 ∉ rest.map Prod.fst ∧ (rest.map Prod.fst).Nodup := by
        simpa [List.nodup_cons] using hnd
      rcases List.mem_cons.mp hp with h | h
      · subst h
        simp [lookupAgent]
      · have hne : q.1 ≠ p.1 := by
          intro he
          exact hnd2.1 (by rw [he]; exact List.mem_map_of_mem Prod.fst h)
        simp only [lookupAgent, if_neg hne]
        exact ih hnd2.2 h

/-- C5: updateStatus is idempotent (applying the same update twice equals
applying it once) and monotonic in observedAt (an update older than the
stored last_seen of the identity leaves the registry unchanged; the
uniqueness hypothesis is the registry identity invariant of the spec data
model). -/
theorem updateStatus_idem_mono (reg : Registry) (id : AgentID) (st : AgentStatus) (t : Nat) :
    ((reg.updateStatus id st t).updateStatus id st t = reg.updateStatus id st t) ∧
    (∀ a : Agent, (reg.agents.map Prod.fst).Nodup →
      lookupAgent reg.agents id = some a → t < a.last_seen →
      reg.updateStatus id st t = reg) := by
  constructor
  · simp only [Registry.updateStatus, Registry.mk.injEq, List.map_map]
    apply List.map_congr_left
    intro p _
    by_cases h1 : p.1 = id
    · by_cases h2 : t < p.2.last_seen
      · simp [Function.comp, h1, h2]
      · simp [Function.comp, h1, h2]
    · simp [Function.comp, h1]
  · intro a hnd hlk hlt
    cases reg with
    | mk l =>
        simp only [Registry.updateStatus, Registry.mk.injEq]
        have hpt : ∀ p ∈ l,
            (if p.1 = id then
              if t < p.2.last_seen then p
              else (p.1, { p.2 with status := st, last_seen := t })
            else p) = p := by
          intro p hp
          by_cases h1 : p.1 = id
          · have := lookupAgent_of_mem_nodup hnd hp
            rw [h1] at this
            rw [this] at hlk
            have hpa : p.2 = a := by
              injection hlk
            rw [if_pos h1, if_pos (hpa ▸ hlt)]
          · rw [if_neg h1]
        rw [List.map_congr_left hpt]
        simp

/-- The concrete agent used by the C5 witness. -/
def wAgent : Agent := ⟨Role.Developer, "demo", "demo", 0, AgentStatus.Active, 10⟩

/-- The concrete one-agent registry used by the C5 witness. -/
def wReg : Registry := ⟨[(("demo", 0), wAgent)]⟩

/-- C5 witness: writing status Stalled with an observedAt of 3, older than
the stored last_seen of 10, leaves the concrete registry unchanged. -/
theorem updateStatus_idem_mono_witness :
    Registry.updateStatus wReg ("demo", 0) AgentStatus.Stalled 3 = wReg :=
  (updateStatus_idem_mono wReg ("demo", 0) AgentStatus.Stalled 3).2 wAgent
    (by decide) (by decide) (by decide)

/-- C4: a successful register followed by get returns an agent carrying
exactly the registered fields; a second register of the same session:window
fails with DuplicateIdentity while the registration is not Retired; and
after retire, registering the same session:window succeeds again. -/
theorem register_roundtrip (reg : Registry) (role : Role) (team session : String)
    (window : Nat) (id : AgentID) (reg' : Registry)
    (h : reg.register role team session window = Except.ok (id, reg')) :
    (∃ a : Agent, reg'.get id = Except.ok a ∧ a.role = role ∧ a.team = team ∧
      a.session = session ∧ a.window = window) ∧
    (∀ r2 : Role, ∀ t2 : String,
      reg'.register r2 t2 session window = Except.error RegError.DuplicateIdentity) ∧
    (∀ r2 : Role, ∀ t2 : String, ∃ id2 : AgentID, ∃ reg2 : Registry,
      (reg'.retire id).register r2 t2 session window = Except.ok (id2, reg2)) := by
  have hmain : id = (session, window) ∧
      reg' = ⟨((session, window),
        (⟨role, team, session, window, AgentStatus.Active, 0⟩ : Agent)) ::
        removeAgent reg.agents (session, window)⟩ := by
    unfold Registry.register at h
    rcases hl : lookupAgent reg.agents (session, window) with _ | a <;> rw [hl] at h
    · simp only [Except.ok.injEq, Prod.mk.injEq] at h
      exact ⟨h.1.symm, h.2.symm⟩
    · by_cases hr : a.status = AgentStatus.Retired
      · simp only [hr, if_true, Except.ok.injEq, Prod.mk.injEq] at h
        exact ⟨h.1.symm, h.2.symm⟩
      · simp only [hr, if_false] at h
        cases h
  obtain ⟨hid, hreg⟩ := hmain
  subst hid
  subst hreg
  refine ⟨⟨⟨role, team, session, window, AgentStatus.Active, 0⟩, ?_, rfl, rfl, rfl, rfl⟩,
    ?_, ?_⟩
  · simp [Registry.get, lookupAgent]
  · intro r2 t2
    simp [Registry.register, lookupAgent]
  · intro r2 t2
    have hl2 : lookupAgent ((Registry.mk (((session, window),
        (⟨role, team, session, window, AgentStatus.Active, 0⟩ : Agent)) ::
        removeAgent reg.agents (session, window))).retire (session, window)).agents
        (session, window) =
        some ⟨role, team, session, window, AgentStatus.Retired, 0⟩ := by
      simp [Registry.retire, lookupAgent]
    refine ⟨(session, window),
      ⟨((session, window), ⟨r2, t2, session, window, AgentStatus.Active, 0⟩) ::
        removeAgent ((Registry.mk (((session, window),
          (⟨role, team, session, window, AgentStatus.Active, 0⟩ : Agent)) ::
          removeAgent reg.agents (session, window))).retire (session, window)).agents
          (session, window)⟩, ?_⟩
    unfold Registry.register
    rw [hl2]
    rfl

/-- The registry produced by registering one developer into the empty
registry, used by the C4 witness. -/
def wReg1 : Registry :=
  ⟨[(("demo", 0), ⟨Role.Developer, "demo", "demo", 0, AgentStatus.Active, 0⟩)]⟩

/-- C4 witness: after registering demo:0 in the empty registry, a second
register of demo:0 fails with DuplicateIdentity. -/
theorem register_roundtrip_witness :
    wReg1.register Role.QA "demo" "demo" 0 = Except.error RegError.DuplicateIdentity :=
  (register_roundtrip Registry.empty Role.Developer "demo" "demo" 0 ("demo", 0) wReg1
    rfl).2.1 Role.QA "demo"

/-- A send whose gateway call errors is marked Failed with GatewayError. -/
theorem sendResult_of_gatewayError {g : Nat → AttemptResult}
    (h : sendGatewayError g = true) :
    sendResult g = DeliveryResult.Failed FailCause.GatewayError := by
  cases h0 : g 0 <;> cases h1 : g 1 <;> simp_all [sendGatewayError, sendResult]

/-- A send confirmed within the two attempts is Delivered or Retried. -/
theorem sendResult_of_confirms {g : Nat → AttemptResult}
    (h : sendConfirms g = true) :
    sendResult g = DeliveryResult.Delivered ∨ sendResult g = DeliveryResult.Retried := by
  cases h0 : g 0 <;> cases h1 : g 1 <;> simp_all [sendConfirms, sendResult]

/-- Counting lemma behind the broadcast theorem: with unique identities, one
erroring target among otherwise confirming targets yields exactly one
GatewayError entry in the pointwise result map. -/
theorem countP_one_gatewayError (g : AgentID → Nat → AttemptResult) (a0 : AgentID)
    (herr : sendGatewayError (g a0) = true) :
    ∀ l : List (AgentID × Agent), (l.map Prod.fst).Nodup → a0 ∈ l.map Prod.fst →
      (∀ p ∈ l, p.1 ≠ a0 → sendConfirms (g p.1) = true) →
      (l.map (fun p => (p.1, sendResult (g p.1)))).countP
        (fun q => decide (q.2 = DeliveryResult.Failed FailCause.GatewayError)) = 1 := by
  intro l
  induction l with
  | nil => intro _ hmem _; simp at hmem
  | cons p rest ih =>
      intro hnd hmem hok
      have hnd2 : p.1 ∉ rest.map Prod.fst ∧ (rest.map Prod.fst).Nodup := by
        simpa [List.nodup_cons] using hnd
      by_cases hp : p.1 = a0
      · have hfail : sendResult (g p.1) = DeliveryResult.Failed FailCause.GatewayError := by
          rw [hp]; exact sendResult_of_gatewayError herr
        have hrest : (rest.map (fun p => (p.1, sendResult (g p.1)))).countP
            (fun q => decide (q.2 = DeliveryResult.Failed FailCause.GatewayError)) = 0 := by
          rw [List.countP_eq_zero]
          intro q hq
          obtain ⟨r, hr, hrq⟩ := List.mem_map.mp hq
          have hr0 : r.1 ≠ a0 := by
            intro he
            exact hnd2.1 (by rw [hp, ← he]; exact List.mem_map_of_mem Prod.fst hr)
          rcases sendResult_of_confirms (hok r (List.mem_cons_of_mem p hr) hr0) with h | h <;>
            rw [← hrq] <;> simp [h]
        rw [List.map_cons, List.countP_cons, hrest, hfail]
        simp
      · have hmem2 : a0 ∈ rest.map Prod.fst := by
          rw [List.map_cons] at hmem
          rcases List.mem_cons.mp hmem with h | h
          · exact absurd h.symm hp
          · exact h
        have hok2 : ∀ q ∈ rest, q.1 ≠ a0 → sendConfirms (g q.1) = true :=
          fun q hq => hok q (List.mem_cons_of_mem p hq)
        have hhead : sendResult (g p.1) = DeliveryResult.Delivered ∨
            sendResult (g p.1) = DeliveryResult.Retried :=
          sendResult_of_confirms (hok p (List.mem_cons_self p rest) hp)
        rw [List.map_cons, List.countP_cons, ih hnd2.2 hmem2 hok2]
        rcases hhead with h | h <;> simp [h]

/-- C1: broadcast over a team of registered Active agents is the pointwise
fan-out of send (each per-agent result depends only on that agent's own
gateway behavior, so one failure cannot block or fail the others), returns
one result per team member, and when exactly one target's gateway call
errors, exactly one entry is Failed with GatewayError, that target's own
entry, while every other entry is Delivered or Retried. -/
theorem broadcast_isolates_failure (team : List (AgentID × Agent))
    (g : AgentID → Nat → AttemptResult) (a0 : AgentID)
    (hact : ∀ p ∈ team, p.2.status = AgentStatus.Active)
    (hnd : (team.map Prod.fst).Nodup)
    (hmem : a0 ∈ team.map Prod.fst)
    (herr : sendGatewayError (g a0) = true)
    (hok : ∀ p ∈ team, p.1 ≠ a0 → sendConfirms (g p.1) = true) :
    broadcast team g = team.map (fun p => (p.1, sendResult (g p.1))) ∧
    (broadcast team g).length = team.length ∧
    ((broadcast team g).filter
      (fun q => decide (q.2 = DeliveryResult.Failed FailCause.GatewayError))).length = 1 ∧
    (∀ q ∈ broadcast team g, q.1 ≠ a0 →
      q.2 = DeliveryResult.Delivered ∨ q.2 = DeliveryResult.Retried) ∧
    (∀ q ∈ broadcast team g, q.1 = a0 →
      q.2 = DeliveryResult.Failed FailCause.GatewayError) := by
  have hb : broadcast team g = team.map (fun p => (p.1, sendResult (g p.1))) := by
    unfold broadcast
    rw [List.filter_eq_self.mpr (fun p hp => by simp [hact p hp])]
  refine ⟨hb, by rw [hb, List.length_map], ?_, ?_, ?_⟩
  · rw [hb, ← List.countP_eq_length_filter]
    exact countP_one_gatewayError g a0 herr team hnd hmem hok
  · intro q hq hq0
    rw [hb] at hq
    obtain ⟨r, hr, hrq⟩ := List.mem_map.mp hq
    have hr0 : r.1 ≠ a0 := by rw [← hrq] at hq0; exact hq0
    rcases sendResult_of_confirms (hok r hr hr0) with h | h <;> rw [← hrq] <;> simp [h]
  · intro q hq hq0
    rw [hb] at hq
    obtain ⟨r, hr, hrq⟩ := List.mem_map.mp hq
    rw [← hrq]
    have : r.1 = a0 := by rw [← hrq] at hq0; exact hq0
    simp only [this]
    exact sendResult_of_gatewayError herr

/-- The two-agent team used by the C1 witness. -/
def wTeam : List (AgentID × Agent) :=
  [(("demo", 0), ⟨Role.Developer, "demo", "demo", 0, AgentStatus.Active, 0⟩),
   (("demo", 1), ⟨Role.ProjectManager, "demo", "demo", 1, AgentStatus.Active, 0⟩)]

/-- The gateway oracle of the C1 witness: the dev window errors, the PM
window confirms on the first attempt. -/
def wOracle : AgentID → Nat → AttemptResult :=
  fun a _ => if a = (("demo", 0) : AgentID) then AttemptResult.gatewayError
             else AttemptResult.changed

/-- C1 witness: on the concrete two-agent team with one erroring target,
broadcast returns two results with exactly one GatewayError failure. -/
theorem broadcast_isolates_failure_witness :
    (broadcast wTeam wOracle).length = wTeam.length ∧
    ((broadcast wTeam wOracle).filter
      (fun q => decide (q.2 = DeliveryResult.Failed FailCause.GatewayError))).length = 1 :=
  ⟨(broadcast_isolates_failure wTeam wOracle ("demo", 0) (by decide) (by decide)
      (by decide) (by decide) (by decide)).2.1,
   (broadcast_isolates_failure wTeam wOracle ("demo", 0) (by decide) (by decide)
      (by decide) (by decide) (by decide)).2.2.1⟩

/-- C3 counterexample: a team deployed with the medium template contains the
Developer role twice among its member agents, refuting role uniqueness for
the small/medium templates as claimed (the medium template of the README is
2 developers + 1 PM + 1 QA). -/
theorem medium_template_repeats_developer :
    ((deploy initialState "demo" "demo" true "medium" allChanged).1.reg.agents.map
      (fun p => p.2.role)).count Role.Developer = 2 := by
  rfl

/-- C3 amended: a team deployed with the small template has no repeated
role, and for every template size only the Developer role may appear more
than once among the team roles. -/
theorem template_role_repetition (size : String) (roles : List Role)
    (h : templateRoles size = some roles) :
    (size = "small" → roles.Nodup) ∧
    (∀ r : Role, 1 < roles.count r → r = Role.Developer) := by
  unfold templateRoles at h
  by_cases h1 : size = "small"
  · rw [if_pos h1] at h
    injection h with h
    subst h
    exact ⟨fun _ => by decide, by decide⟩
  · rw [if_neg h1] at h
    by_cases h2 : size = "medium"
    · rw [if_pos h2] at h
      injection h with h
      subst h
      exact ⟨fun hs => absurd hs h1, by decide⟩
    · rw [if_neg h2] at h
      by_cases h3 : size = "large"
      · rw [if_pos h3] at h
        injection h with h
        subst h
        exact ⟨fun hs => absurd hs h1, by decide⟩
      · rw [if_neg h3] at h
        cases h

/-- C3 witness: the amended statement instantiated at the medium template. -/
theorem template_role_repetition_witness :
    ("medium" = "small" → mediumRoles.Nodup) ∧
    (∀ r : Role, 1 < mediumRoles.count r → r = Role.Developer) :=
  template_role_repetition "medium" mediumRoles rfl

/-- C7: deploying the small template for a resolvable project path on a
fresh orchestrator state, with every briefing confirmed on the first
attempt, produces exactly the two agents session:0 and session:1 with roles
Developer and ProjectManager, both Active, and appends exactly 2 Delivered
briefing Messages to the audit log. -/
theorem deploy_small_scenario (projectName session : String) :
    ((deploy initialState projectName session true "small" allChanged).2 =
      Except.ok [(session, 0), (session, 1)]) ∧
    ((deploy initialState projectName session true "small" allChanged).1.reg.agents.map
      (fun p => p.2.role)) = [Role.ProjectManager, Role.Developer] ∧
    (∀ p ∈ (deploy initialState projectName session true "small" allChanged).1.reg.agents,
      p.2.status = AgentStatus.Active) ∧
    ((deploy initialState projectName session true "small" allChanged).1.log.length = 2) ∧
    (∀ m ∈ (deploy initialState projectName session true "small" allChanged).1.log,
      m.outcome = DeliveryResult.Delivered) := by
  have hroles : templateRoles "small" = some smallRoles := rfl
  simp only [deploy, hroles, Bool.true_eq_false, if_false, smallRoles, deployRoles,
    initialState, Registry.empty, Registry.register, lookupAgent, removeAgent,
    List.filter_nil, allChanged, sendResult, briefingText]
  norm_num [Prod.ext_iff]
  rintro a b c (⟨-, rfl⟩ | ⟨-, rfl⟩) <;> rfl

/-- C7 witness: the scenario instantiated at project demo, session demo. -/
theorem deploy_small_scenario_witness :
    (deploy initialState "demo" "demo" true "small" allChanged).1.log.length = 2 :=
  (deploy_small_scenario "demo" "demo").2.2.2.1

/-- C8: deploy rejects an unresolvable project path with ProjectPathNotFound
and an unknown template size with UnknownTemplate, and in both cases it is
rejected before any side effect: the registry, the audit log and the
created-window set are returned unchanged. -/
theorem deploy_validation_no_side_effect (st : OrchestraState)
    (projectName session size : String) (g : Nat → Nat → AttemptResult) :
    (deploy st projectName session false size g =
      (st, Except.error DeployError.ProjectPathNotFound)) ∧
    (templateRoles size = none →
      deploy st projectName session true size g =
        (st, Except.error DeployError.UnknownTemplate)) := by
  constructor
  · rfl
  · intro h
    unfold deploy
    rw [h]
    rfl

/-- C8 witness: an unknown template size on a fresh state is rejected with
UnknownTemplate and the state is unchanged. -/
theorem deploy_validation_no_side_effect_witness :
    deploy initialState "demo" "demo" true "huge" allChanged =
      (initialState, Except.error DeployError.UnknownTemplate) :=
  (deploy_validation_no_side_effect initialState "demo" "demo" "huge" allChanged).2 rfl

/-- C9 counterexample: check_git_status injects the git status command text
directly into the target window with tmux send-keys rather than through the
Message Dispatcher send script, refuting that every component injects text
only through the dispatcher send/broadcast path. -/
theorem check_git_status_bypasses_dispatcher :
    (check_git_status "demo" [0]).any
      (fun e => injectsText e && !(viaDispatcher e)) = true := by
  rfl

/-- Every injection emitted by broadcast_to_session goes through the
dispatcher send script. -/
theorem broadcast_to_session_all_dispatch (session : String) (windows : List Nat)
    (message : String) :
    (broadcast_to_session session windows message).all
      (fun e => !(injectsText e) || viaDispatcher e) = true := by
  induction windows with
  | nil => rfl
  | cons v vs ih => simpa [broadcast_to_session, injectsText, viaDispatcher] using ih

/-- C9 amended: all agent-message sends of the shell utilities
(broadcast_to_session, daily_standup, git_commit_reminder, and the PM
briefing of create_pm) are routed through the dispatcher send script, but
check_git_status and the agent-startup keystroke of create_pm inject text
directly into windows, bypassing the dispatcher. -/
theorem message_sends_route_through_dispatcher (session : String) (windows : List Nat)
    (message : String) (devWins : List (String × Nat)) (w : Nat) (pmBriefing : String) :
    ((broadcast_to_session session windows message).all
      (fun e => !(injectsText e) || viaDispatcher e) = true) ∧
    ((daily_standup session windows).all
      (fun e => !(injectsText e) || viaDispatcher e) = true) ∧
    ((git_commit_reminder devWins).all
      (fun e => !(injectsText e) || viaDispatcher e) = true) ∧
    ((check_git_status session windows).filter
      (fun e => injectsText e && !(viaDispatcher e)) =
      windows.map (fun v => UtilEffect.directKeys session v gitStatusCommand)) ∧
    ((create_pm session w pmBriefing).filter
      (fun e => injectsText e && !(viaDispatcher e)) =
      [UtilEffect.directKeys session w "claude"]) := by
  refine ⟨broadcast_to_session_all_dispatch session windows message,
    broadcast_to_session_all_dispatch session windows standupMessage, ?_, ?_, ?_⟩
  · induction devWins with
    | nil => rfl
    | cons d ds ih => simpa [git_commit_reminder, injectsText, viaDispatcher] using ih
  · induction windows with
    | nil => rfl
    | cons v vs ih =>
        have h1 : (injectsText (UtilEffect.directKeys session v gitStatusCommand) &&
            !(viaDispatcher (UtilEffect.directKeys session v gitStatusCommand))) = true := rfl
        have h2 : (injectsText (UtilEffect.sleepSec 1) &&
            !(viaDispatcher (UtilEffect.sleepSec 1))) = false := rfl
        have h3 : (injectsText (UtilEffect.capturePane session v) &&
            !(viaDispatcher (UtilEffect.capturePane session v))) = false := rfl
        simp only [check_git_status, List.filter_cons, h1, h2, h3]
        simp [ih]
  · simp [create_pm, injectsText, viaDispatcher, List.filter_cons]

end Orchestra
